import Mathlib

/-!
Shallow embedding of cri-o's `server/container_update_resources.go` and
`server/container_stats.go`, together with models of the external
collaborators those two files call (container/sandbox registry, runtime
shim, disk-usage probe, host swap-accounting detection).  External calls
are passed in as explicit function parameters; the server's in-memory
store is threaded as an explicit state value.
-/

namespace CRIO

/-! ### String containment (used to state "the error message references the ID") -/

/-- `listStartsWith pat l` is true when `pat` is an initial segment of `l`. -/
def listStartsWith : List Char → List Char → Bool
  | [], _ => true
  | _ :: _, [] => false
  | a :: as, b :: bs => a == b && listStartsWith as bs

/-- `listHasInfix pat l` is true when `pat` occurs contiguously inside `l`. -/
def listHasInfix (pat : List Char) : List Char → Bool
  | [] => pat.isEmpty
  | b :: bs => listStartsWith pat (b :: bs) || listHasInfix pat bs

/-- `strContains msg pat` is true when `pat` occurs as a contiguous substring of `msg`. -/
def strContains (msg pat : String) : Bool :=
  listHasInfix pat.data msg.data

/-! ### CRI request types (`server/cri/types`) -/

namespace types

/-- CRI resource-update payload; numeric fields use zero as the absent sentinel. -/
structure LinuxContainerResources where
  CPUPeriod : Int
  CPUQuota : Int
  CPUShares : Int
  MemoryLimitInBytes : Int
  OomScoreAdj : Int
  CPUsetCPUs : String
  CPUsetMems : String
  deriving DecidableEq, Repr

/-- Request for `UpdateContainerResources`; `Linux` mirrors the Go nilable pointer. -/
structure UpdateContainerResourcesRequest where
  ContainerID : String
  Linux : Option LinuxContainerResources
  deriving DecidableEq, Repr

end types

/-! ### OCI runtime-spec types (`opencontainers/runtime-spec/specs-go`).
Only the fields the two source files touch are carried; pointer fields of the
Go structs become `Option`. -/

namespace rspec

structure LinuxCPU where
  Shares : Option Nat
  Quota : Option Int
  Period : Option Nat
  Cpus : String
  Mems : String
  deriving DecidableEq, Repr

structure LinuxMemory where
  Limit : Option Int
  Swap : Option Int
  deriving DecidableEq, Repr

structure LinuxResources where
  CPU : Option LinuxCPU
  Memory : Option LinuxMemory
  deriving DecidableEq, Repr

end rspec

/-- Go's `uint64(x)` conversion from a signed 64-bit value: reduction mod 2^64. -/
def uint64Of (x : Int) : Nat :=
  (x % (2 : Int) ^ 64).toNat

/-- `toOCIResources` from `container_update_resources.go`: converts CRI resource
constraints to OCI.  The call to `node.CgroupHasMemorySwap()` (a host probe) is
passed in as `swapSupported`.  Cpus/Mems are copied unconditionally; every
numeric field is populated only when the source field is non-zero. -/
def toOCIResources (swapSupported : Bool) (r : types.LinuxContainerResources) :
    rspec.LinuxResources :=
  let cpu : rspec.LinuxCPU :=
    { Cpus := r.CPUsetCPUs
      Mems := r.CPUsetMems
      Shares := if r.CPUShares ≠ 0 then some (uint64Of r.CPUShares) else none
      Period := if r.CPUPeriod ≠ 0 then some (uint64Of r.CPUPeriod) else none
      Quota := if r.CPUQuota ≠ 0 then some r.CPUQuota else none }
  let memory : rspec.LinuxMemory :=
    { Limit := if r.MemoryLimitInBytes ≠ 0 then some r.MemoryLimitInBytes else none
      Swap :=
        if r.MemoryLimitInBytes ≠ 0 ∧ swapSupported then some r.MemoryLimitInBytes
        else none }
  { CPU := some cpu, Memory := some memory }

/-! ### Container and sandbox objects (`internal/oci`, registry side).
Only their interface boundary appears in the two source files; the structures
below carry exactly the accessors those files use. -/

/-- Lifecycle state of a container, as used by the liveness check. -/
inductive ContainerState
  | created
  | running
  | stopped
  | paused
  deriving DecidableEq, Repr

/-- Display form of a lifecycle state (used in the liveness error message). -/
def ContainerState.str : ContainerState → String
  | .created => "created"
  | .running => "running"
  | .stopped => "stopped"
  | .paused => "paused"

namespace types

/-- CRI container metadata (name and attempt counter). -/
structure ContainerMetadata where
  Name : String
  Attempt : Nat
  deriving DecidableEq, Repr

end types

namespace oci

/-- In-memory container object.  `resources` is the mutable resource-limit
snapshot; `sandbox` is the owning sandbox's ID (lookup-only reference). -/
structure Container where
  id : String
  sandbox : String
  state : ContainerState
  resources : Option rspec.LinuxResources
  mountPoint : String
  metadata : types.ContainerMetadata
  labels : List (String × String)
  annotations : List (String × String)
  deriving DecidableEq, Repr

/-- Modelled from the spec: `oci.Container.IsAlive` is not under `src/`; per the
spec only containers in a "created" or "running" state are alive, any other
state yields an error (whose text names the offending state). -/
def Container.IsAlive (c : Container) : Except String Unit :=
  match c.state with
  | .created => .ok ()
  | .running => .ok ()
  | st => .error ("container state is " ++ st.str)

/-- Raw runtime stats snapshot (`oci.ContainerStats`): cumulative CPU
nanoseconds, working-set bytes, and the collection timestamp. -/
structure ContainerStats where
  SystemNano : Int
  CPUNano : Nat
  WorkingSetBytes : Nat
  deriving DecidableEq, Repr

end oci

/-- Sandbox object: identity plus the cgroup-parent path used to scope stats. -/
structure Sandbox where
  id : String
  cgroupParent : String
  deriving DecidableEq, Repr

/-! ### CRI stats response types (`server/cri/types`) -/

namespace types

structure UInt64Value where
  Value : Nat
  deriving DecidableEq, Repr

structure FilesystemIdentifier where
  Mountpoint : String
  deriving DecidableEq, Repr

structure FilesystemUsage where
  Timestamp : Int
  FsID : Option FilesystemIdentifier
  UsedBytes : Option UInt64Value
  InodesUsed : Option UInt64Value
  deriving DecidableEq, Repr

structure CPUUsage where
  Timestamp : Int
  UsageCoreNanoSeconds : Option UInt64Value
  deriving DecidableEq, Repr

structure MemoryUsage where
  Timestamp : Int
  WorkingSetBytes : Option UInt64Value
  deriving DecidableEq, Repr

structure ContainerAttributes where
  ID : String
  Metadata : Option ContainerMetadata
  Labels : List (String × String)
  Annotations : List (String × String)
  deriving DecidableEq, Repr

/-- Unified per-container stats record; pointer-valued Go fields are `Option`. -/
structure ContainerStats where
  Attributes : Option ContainerAttributes
  CPU : Option CPUUsage
  Memory : Option MemoryUsage
  WritableLayer : Option FilesystemUsage
  deriving DecidableEq, Repr

structure ContainerStatsRequest where
  ContainerID : String
  deriving DecidableEq, Repr

structure ContainerStatsResponse where
  Stats : ContainerStats
  deriving DecidableEq, Repr

end types

/-! ### Server state and registry lookups -/

/-- The server's in-memory store, restricted to what the two source files read:
the container registry, the sandbox registry, and the configured storage
driver name (`ContainerServer.Config().RootConfig.Storage`). -/
structure Server where
  containers : List oci.Container
  sandboxes : List Sandbox
  storage : String
  deriving DecidableEq, Repr

/-- Modelled from the spec: the registry operation
`resolveContainer(shortID) -> Container | NotFoundError`
(`GetContainerFromShortID` is not under `src/`).  The short-ID expansion is
abstracted to a registry lookup by ID; a missing ID is a not-found error. -/
def Server.GetContainerFromShortID (s : Server) (cid : String) :
    Except String oci.Container :=
  match s.containers.find? (fun c => c.id == cid) with
  | some c => .ok c
  | none => .error ("container with ID starting with " ++ cid ++ " not found")

/-- Modelled from the spec: the registry operation
`resolveSandbox(id) -> Sandbox | nil` (`GetSandbox` is not under `src/`). -/
def Server.GetSandbox (s : Server) (sid : String) : Option Sandbox :=
  s.sandboxes.find? (fun sb => sb.id == sid)

/-- Modelled from the spec: `UpdateContainerLinuxResources` is not under
`src/`; per the spec it replaces the container's in-memory resource-limit
snapshot wholesale with the applied spec (never a partial patch). -/
def Server.UpdateContainerLinuxResources (s : Server) (c : oci.Container)
    (res : rspec.LinuxResources) : Server :=
  { s with
    containers :=
      s.containers.map fun x =>
        if x.id == c.id then { x with resources := some res } else x }

/-- `UpdateContainerResources` from `container_update_resources.go`.
External collaborators appear as parameters: `swapSupported` stands for
`node.CgroupHasMemorySwap()` and `runtimeUpdate` for
`s.Runtime().UpdateContainer`.  The Go method returns an error and mutates the
in-memory store; here it returns the error option together with the resulting
store. -/
def Server.UpdateContainerResources (s : Server) (swapSupported : Bool)
    (runtimeUpdate : oci.Container → rspec.LinuxResources → Option String)
    (req : types.UpdateContainerResourcesRequest) : Option String × Server :=
  match s.GetContainerFromShortID req.ContainerID with
  | .error e => (some e, s)
  | .ok c =>
    match c.IsAlive with
    | .error e => (some ("container is not created or running: " ++ e), s)
    | .ok _ =>
      match req.Linux with
      | none => (none, s)
      | some r =>
        let resources := toOCIResources swapSupported r
        match runtimeUpdate c resources with
        | some e => (some e, s)
        | none => (none, s.UpdateContainerLinuxResources c resources)

/-! ### Stats collection (`container_stats.go`) -/

/-- Model of Go's `filepath.Dir`: everything before the final path separator
(`"."` when there is none). -/
def filepathDir (path : String) : String :=
  match (path.splitOn "/").dropLast with
  | [] => "."
  | ps => String.intercalate "/" ps

/-- Model of Go's `filepath.Join` for the two-component use in the source. -/
def filepathJoin (a b : String) : String :=
  a ++ "/" ++ b

/-- The error appended when a container's sandbox cannot be resolved:
`"unable to get stats for container %s: sandbox %s not found"`. -/
def sandboxNotFoundMsg (c : oci.Container) : String :=
  "unable to get stats for container " ++ c.id ++ ": sandbox " ++ c.sandbox ++
    " not found"

/-- The warning logged when the disk-usage probe fails:
`"unable to get disk usage for container %s， %s"` (the separator is the
fullwidth comma appearing verbatim in the source). -/
def diskUsageWarnMsg (c : oci.Container) (e : String) : String :=
  "unable to get disk usage for container " ++ c.id ++ "， " ++ e

/-- `buildContainerStats` from `container_stats.go`: merges the raw runtime
stats with container attributes and, on the overlay storage driver, the disk
usage of the sibling `diff` directory of the mount point.  `probe` stands for
`statsmgr.GetDiskUsageStats`, which is not under `src/`; modelled from the
spec: on failure it yields zero-valued bytes/inodes alongside its error, so the
caller records zero usage and logs a warning.  The second component of the
result is the list of warnings emitted through `log.Warnf`. -/
def Server.buildContainerStats (s : Server)
    (probe : String → Except String (Nat × Nat))
    (stats : oci.ContainerStats) (container : oci.Container) :
    types.ContainerStats × List String :=
  let probed : Option ((Nat × Nat) × List String) :=
    if s.storage == "overlay" then
      let diffDir := filepathJoin (filepathDir container.mountPoint) "diff"
      match probe diffDir with
      | .error e => some ((0, 0), [diskUsageWarnMsg container e])
      | .ok u => some (u, [])
    else none
  let writableLayer : Option types.FilesystemUsage :=
    probed.map fun p =>
      { Timestamp := stats.SystemNano
        FsID := some { Mountpoint := container.mountPoint }
        UsedBytes := some { Value := p.1.1 }
        InodesUsed := some { Value := p.1.2 } }
  ({ Attributes := some
      { ID := container.id
        Metadata := some
          { Name := container.metadata.Name
            Attempt := container.metadata.Attempt }
        Labels := container.labels
        Annotations := container.annotations }
     CPU := some
      { Timestamp := stats.SystemNano
        UsageCoreNanoSeconds := some { Value := stats.CPUNano } }
     Memory := some
      { Timestamp := stats.SystemNano
        WorkingSetBytes := some { Value := stats.WorkingSetBytes } }
     WritableLayer := writableLayer },
   (probed.map Prod.snd).getD [])

/-- Result of a batch stats call: the success and error sequences returned by
the Go function, plus the warnings written to the log stream. -/
structure StatsBatch where
  stats : List types.ContainerStats
  errs : List String
  logs : List String
  deriving DecidableEq, Repr

/-- `CRIStatsForContainers` from `container_stats.go`: per-container sandbox
resolution, runtime stats query (`runtimeStats` stands for
`s.Runtime().ContainerStats`, scoped by the sandbox's cgroup parent), and
record assembly; each failure is appended to `errs` and processing continues
with the next container. -/
def Server.CRIStatsForContainers (s : Server)
    (runtimeStats : oci.Container → String → Except String oci.ContainerStats)
    (probe : String → Except String (Nat × Nat)) :
    List oci.Container → StatsBatch
  | [] => ⟨[], [], []⟩
  | c :: rest =>
    let tail := Server.CRIStatsForContainers s runtimeStats probe rest
    match s.GetSandbox c.sandbox with
    | none => { tail with errs := sandboxNotFoundMsg c :: tail.errs }
    | some sb =>
      match runtimeStats c sb.cgroupParent with
      | .error e => { tail with errs := e :: tail.errs }
      | .ok ociStat =>
        let built := s.buildContainerStats probe ociStat c
        { tail with
          stats := built.1 :: tail.stats
          logs := built.2 ++ tail.logs }

/-- `ContainerStats` from `container_stats.go`: the single-container entry
point.  Resolve the container, run the batch call on it alone, surface the
first error when any occurred, demand exactly one success record otherwise. -/
def Server.ContainerStats (s : Server)
    (runtimeStats : oci.Container → String → Except String oci.ContainerStats)
    (probe : String → Except String (Nat × Nat))
    (req : types.ContainerStatsRequest) :
    Except String types.ContainerStatsResponse :=
  match s.GetContainerFromShortID req.ContainerID with
  | .error e => .error e
  | .ok container =>
    let batch := s.CRIStatsForContainers runtimeStats probe [container]
    match batch.errs with
    | e :: _ => .error e
    | [] =>
      match batch.stats with
      | [st] => .ok { Stats := st }
      | _ =>
        .error ("Unknown error happened finding container stats for " ++
          req.ContainerID)

/-- A container for which the batch stats loop takes the success path: its
sandbox resolves and the runtime stats query for it succeeds. -/
def okContainer (s : Server)
    (runtimeStats : oci.Container → String → Except String oci.ContainerStats)
    (c : oci.Container) : Prop :=
  ∃ sb, s.GetSandbox c.sandbox = some sb ∧
    ∃ st, runtimeStats c sb.cgroupParent = .ok st

/-! ### Concrete fixtures used to instantiate the theorems -/

def rFull : types.LinuxContainerResources :=
  { CPUPeriod := 100000, CPUQuota := 50000, CPUShares := 1024,
    MemoryLimitInBytes := 268435456, OomScoreAdj := 0,
    CPUsetCPUs := "0-1", CPUsetMems := "0" }

def rZero : types.LinuxContainerResources :=
  { CPUPeriod := 0, CPUQuota := 0, CPUShares := 0, MemoryLimitInBytes := 0,
    OomScoreAdj := 0, CPUsetCPUs := "", CPUsetMems := "" }

def ctrRun : oci.Container :=
  { id := "ctr1", sandbox := "sb1", state := .running, resources := none,
    mountPoint := "/st/ovl/c1/merged",
    metadata := { Name := "web", Attempt := 0 },
    labels := [("app", "web")], annotations := [] }

def ctrStopped : oci.Container :=
  { ctrRun with id := "ctr2", state := .stopped }

def ctrA : oci.Container := { ctrRun with id := "aaa" }

def ctrB : oci.Container := { ctrRun with id := "bbb" }

def ctrGhost : oci.Container :=
  { ctrRun with id := "ggg", sandbox := "ghost" }

def ctrBoom : oci.Container := { ctrRun with id := "abc" }

def sb1 : Sandbox := { id := "sb1", cgroupParent := "/crio/sb1" }

def srv1 : Server :=
  { containers := [ctrRun, ctrStopped], sandboxes := [sb1],
    storage := "overlay" }

def srvNonOverlay : Server := { srv1 with storage := "vfs" }

def reqRun : types.UpdateContainerResourcesRequest :=
  { ContainerID := "ctr1", Linux := some rFull }

def reqStopped : types.UpdateContainerResourcesRequest :=
  { ContainerID := "ctr2", Linux := some rFull }

def reqNil : types.UpdateContainerResourcesRequest :=
  { ContainerID := "ctr1", Linux := none }

def rtFail : oci.Container → rspec.LinuxResources → Option String :=
  fun _ _ => some "runtime failure"

def rtOk : oci.Container → rspec.LinuxResources → Option String :=
  fun _ _ => none

def statsFix : oci.ContainerStats :=
  { SystemNano := 5, CPUNano := 7, WorkingSetBytes := 9 }

def rtStats : oci.Container → String → Except String oci.ContainerStats :=
  fun _ _ => .ok statsFix

def rtBoom : oci.Container → String → Except String oci.ContainerStats :=
  fun _ _ => .error "boom"

def probeOk : String → Except String (Nat × Nat) :=
  fun _ => .ok (1111, 22)

def probeFail : String → Except String (Nat × Nat) :=
  fun _ => .error "walk failed"

/-! ### Lemmas on string containment -/

theorem listStartsWith_self_append (pat b : List Char) :
    listStartsWith pat (pat ++ b) = true := by
  induction pat with
  | nil => rfl
  | cons p ps ih => simp [listStartsWith, ih]

theorem listHasInfix_self_append (pat b : List Char) :
    listHasInfix pat (pat ++ b) = true := by
  cases pat with
  | nil =>
    cases b with
    | nil => rfl
    | cons x xs => simp [listHasInfix, listStartsWith]
  | cons p ps =>
    have h := listStartsWith_self_append (p :: ps) b
    simp [listHasInfix]
    exact Or.inl h

theorem listHasInfix_append (pat a b : List Char) :
    listHasInfix pat (a ++ (pat ++ b)) = true := by
  induction a with
  | nil => simpa using listHasInfix_self_append pat b
  | cons x a ih => simp [listHasInfix, ih]

theorem strContains_append (a pat b : String) :
    strContains (a ++ (pat ++ b)) pat = true := by
  unfold strContains
  rw [String.data_append, String.data_append]
  exact listHasInfix_append pat.data a.data b.data

theorem sandboxNotFoundMsg_has_id (c : oci.Container) :
    strContains (sandboxNotFoundMsg c) c.id = true := by
  have h : sandboxNotFoundMsg c =
      "unable to get stats for container " ++
        (c.id ++ (": sandbox " ++ c.sandbox ++ " not found")) := by
    simp [sandboxNotFoundMsg, String.append_assoc]
  rw [h]
  exact strContains_append _ _ _

/-! ### Claim theorems: resource conversion -/

/-- C3: a resource-update request with all numeric fields (CPU shares, CPU
period, CPU quota, memory limit) equal to zero converts to a spec in which no
optional numeric field is set, with the CPU set cpus/mems strings copied
unconditionally. -/
theorem toOCIResources_all_zero (sw : Bool) (r : types.LinuxContainerResources)
    (h1 : r.CPUShares = 0) (h2 : r.CPUPeriod = 0) (h3 : r.CPUQuota = 0)
    (h4 : r.MemoryLimitInBytes = 0) :
    toOCIResources sw r =
      { CPU := some
          { Shares := none, Quota := none, Period := none,
            Cpus := r.CPUsetCPUs, Mems := r.CPUsetMems },
        Memory := some { Limit := none, Swap := none } } := by
  simp [toOCIResources, h1, h2, h3, h4]

theorem toOCIResources_all_zero_witness :
    rZero.CPUShares = 0 ∧
    toOCIResources true rZero =
      { CPU := some
          { Shares := none, Quota := none, Period := none,
            Cpus := "", Mems := "" },
        Memory := some { Limit := none, Swap := none } } :=
  ⟨rfl, toOCIResources_all_zero true rZero rfl rfl rfl rfl⟩

/-- C4: a non-zero memory limit yields Memory.Swap mirroring the limit exactly
when swap accounting is supported and an absent swap field otherwise; a zero
memory limit never yields a swap field. -/
theorem toOCIResources_swap_mirror (r : types.LinuxContainerResources)
    (hm : r.MemoryLimitInBytes ≠ 0) :
    (toOCIResources true r).Memory =
      some { Limit := some r.MemoryLimitInBytes,
             Swap := some r.MemoryLimitInBytes } ∧
    (toOCIResources false r).Memory =
      some { Limit := some r.MemoryLimitInBytes, Swap := none } ∧
    ∀ (sw : Bool) (r2 : types.LinuxContainerResources),
      r2.MemoryLimitInBytes = 0 →
      (toOCIResources sw r2).Memory = some { Limit := none, Swap := none } := by
  refine ⟨?_, ?_, ?_⟩
  · simp [toOCIResources, hm]
  · simp [toOCIResources, hm]
  · intro sw r2 h0
    simp [toOCIResources, h0]

theorem toOCIResources_swap_mirror_witness :
    rFull.MemoryLimitInBytes ≠ 0 ∧
    (toOCIResources true rFull).Memory =
      some { Limit := some 268435456, Swap := some 268435456 } :=
  ⟨by decide, (toOCIResources_swap_mirror rFull (by decide)).1⟩

/-! ### Claim theorems: resource application -/

/-- C1: on a resolved, live container with a Linux resources payload, a failing
runtime update call leaves the server's in-memory store (hence the container's
resource snapshot) unchanged and propagates the runtime's error verbatim; only
a successful runtime call replaces the snapshot, wholesale, with the converted
spec. -/
theorem updateResources_runtime_outcome (s : Server) (sw : Bool)
    (f : oci.Container → rspec.LinuxResources → Option String)
    (req : types.UpdateContainerResourcesRequest) (c : oci.Container)
    (r : types.LinuxContainerResources)
    (hc : s.GetContainerFromShortID req.ContainerID = .ok c)
    (halive : c.IsAlive = .ok ())
    (hl : req.Linux = some r) :
    (∀ e, f c (toOCIResources sw r) = some e →
      s.UpdateContainerResources sw f req = (some e, s)) ∧
    (f c (toOCIResources sw r) = none →
      s.UpdateContainerResources sw f req =
        (none, s.UpdateContainerLinuxResources c (toOCIResources sw r))) := by
  constructor
  · intro e he
    simp [Server.UpdateContainerResources, hc, halive, hl, he]
  · intro h0
    simp [Server.UpdateContainerResources, hc, halive, hl, h0]

theorem updateResources_runtime_outcome_witness :
    srv1.GetContainerFromShortID reqRun.ContainerID = .ok ctrRun ∧
    srv1.UpdateContainerResources true rtFail reqRun =
      (some "runtime failure", srv1) :=
  ⟨rfl,
   (updateResources_runtime_outcome srv1 true rtFail reqRun ctrRun rFull
      rfl rfl rfl).1 "runtime failure" rfl⟩

/-- C2: when the liveness check fails (state neither created nor running), the
update returns a precondition error, the store is unchanged, and the result is
the same for every runtime-update collaborator — i.e. the runtime update call
is never consulted. -/
theorem updateResources_dead_precondition (s : Server) (sw : Bool)
    (req : types.UpdateContainerResourcesRequest) (c : oci.Container)
    (hc : s.GetContainerFromShortID req.ContainerID = .ok c)
    (h1 : c.state ≠ .created) (h2 : c.state ≠ .running) :
    ∀ f, s.UpdateContainerResources sw f req =
      (some ("container is not created or running: container state is " ++
        c.state.str), s) := by
  intro f
  have halive : c.IsAlive = .error ("container state is " ++ c.state.str) := by
    cases hs : c.state with
    | created => exact absurd hs h1
    | running => exact absurd hs h2
    | stopped => simp [oci.Container.IsAlive, hs]
    | paused => simp [oci.Container.IsAlive, hs]
  have hmsg :
      "container is not created or running: " ++
        ("container state is " ++ c.state.str) =
      "container is not created or running: container state is " ++
        c.state.str := by
    rw [← String.append_assoc]
    rfl
  simp [Server.UpdateContainerResources, hc, halive, hmsg]

theorem updateResources_dead_precondition_witness :
    srv1.GetContainerFromShortID reqStopped.ContainerID = .ok ctrStopped ∧
    srv1.UpdateContainerResources true rtOk reqStopped =
      (some "container is not created or running: container state is stopped",
       srv1) ∧
    srv1.UpdateContainerResources true rtOk reqStopped =
      srv1.UpdateContainerResources true rtFail reqStopped :=
  ⟨rfl,
   updateResources_dead_precondition srv1 true reqStopped ctrStopped
      rfl (by decide) (by decide) rtOk,
   by
    rw [updateResources_dead_precondition srv1 true reqStopped ctrStopped
        rfl (by decide) (by decide) rtOk,
      updateResources_dead_precondition srv1 true reqStopped ctrStopped
        rfl (by decide) (by decide) rtFail]⟩

/-- C10: a request whose Linux resources payload is absent succeeds on a live
container without consulting the runtime-update collaborator (the result is
independent of it) and without changing the server's in-memory store. -/
theorem updateResources_nil_linux (s : Server) (sw : Bool)
    (req : types.UpdateContainerResourcesRequest) (c : oci.Container)
    (hc : s.GetContainerFromShortID req.ContainerID = .ok c)
    (halive : c.IsAlive = .ok ()) (hl : req.Linux = none) :
    ∀ f, s.UpdateContainerResources sw f req = (none, s) := by
  intro f
  simp [Server.UpdateContainerResources, hc, halive, hl]

theorem updateResources_nil_linux_witness :
    srv1.GetContainerFromShortID reqNil.ContainerID = .ok ctrRun ∧
    srv1.UpdateContainerResources true rtFail reqNil = (none, srv1) :=
  ⟨rfl,
   updateResources_nil_linux srv1 true reqNil ctrRun rfl rfl rfl rtFail⟩

/-! ### Lemmas on the batch stats loop -/

theorem criStats_append (s : Server)
    (rt : oci.Container → String → Except String oci.ContainerStats)
    (probe : String → Except String (Nat × Nat))
    (l1 l2 : List oci.Container) :
    s.CRIStatsForContainers rt probe (l1 ++ l2) =
      { stats := (s.CRIStatsForContainers rt probe l1).stats ++
          (s.CRIStatsForContainers rt probe l2).stats,
        errs := (s.CRIStatsForContainers rt probe l1).errs ++
          (s.CRIStatsForContainers rt probe l2).errs,
        logs := (s.CRIStatsForContainers rt probe l1).logs ++
          (s.CRIStatsForContainers rt probe l2).logs } := by
  induction l1 with
  | nil => simp [Server.CRIStatsForContainers]
  | cons c l1 ih =>
    cases hsb : s.GetSandbox c.sandbox with
    | none => simp [Server.CRIStatsForContainers, hsb, ih, List.append_eq]
    | some sb =>
      cases hrt : rt c sb.cgroupParent with
      | error e => simp [Server.CRIStatsForContainers, hsb, hrt, ih, List.append_eq]
      | ok st => simp [Server.CRIStatsForContainers, hsb, hrt, ih, List.append_eq]

theorem criStats_all_ok (s : Server)
    (rt : oci.Container → String → Except String oci.ContainerStats)
    (probe : String → Except String (Nat × Nat))
    (l : List oci.Container) (hok : ∀ c ∈ l, okContainer s rt c) :
    (s.CRIStatsForContainers rt probe l).errs = [] ∧
    (s.CRIStatsForContainers rt probe l).stats.length = l.length := by
  induction l with
  | nil => exact ⟨rfl, rfl⟩
  | cons c l ih =>
    obtain ⟨sb, hsb, st, hst⟩ := hok c (List.mem_cons_self c l)
    have ih2 := ih fun x hx => hok x (List.mem_cons_of_mem _ hx)
    constructor
    · simp [Server.CRIStatsForContainers, hsb, hst, ih2.1]
    · simp [Server.CRIStatsForContainers, hsb, hst, ih2.2]

/-! ### Claim theorems: stats collection -/

/-- C5: in a batch where exactly one container's sandbox fails to resolve and
every other container takes the success path, the call returns N−1 success
records and exactly one error, whose message contains the failing container's
ID; the failure does not stop the other containers from being processed. -/
theorem criStats_one_bad_sandbox (s : Server)
    (rt : oci.Container → String → Except String oci.ContainerStats)
    (probe : String → Except String (Nat × Nat))
    (l1 : List oci.Container) (c : oci.Container) (l2 : List oci.Container)
    (hbad : s.GetSandbox c.sandbox = none)
    (hok : ∀ x ∈ l1 ++ l2, okContainer s rt x) :
    (s.CRIStatsForContainers rt probe (l1 ++ c :: l2)).stats.length =
      l1.length + l2.length ∧
    (s.CRIStatsForContainers rt probe (l1 ++ c :: l2)).errs =
      [sandboxNotFoundMsg c] ∧
    strContains (sandboxNotFoundMsg c) c.id = true := by
  have h1 := criStats_all_ok s rt probe l1
    fun x hx => hok x (List.mem_append_left _ hx)
  have h2 := criStats_all_ok s rt probe l2
    fun x hx => hok x (List.mem_append_right _ hx)
  have hmid : s.CRIStatsForContainers rt probe (c :: l2) =
      { stats := (s.CRIStatsForContainers rt probe l2).stats,
        errs := sandboxNotFoundMsg c :: (s.CRIStatsForContainers rt probe l2).errs,
        logs := (s.CRIStatsForContainers rt probe l2).logs } := by
    simp [Server.CRIStatsForContainers, hbad]
  refine ⟨?_, ?_, sandboxNotFoundMsg_has_id c⟩
  · rw [criStats_append, hmid]
    simp [h1.2, h2.2]
  · rw [criStats_append, hmid]
    simp [h1.1, h2.1]

theorem criStats_one_bad_sandbox_witness :
    srv1.GetSandbox ctrGhost.sandbox = none ∧
    ((srv1.CRIStatsForContainers rtStats probeOk
        ([ctrA] ++ ctrGhost :: [ctrB])).stats.length =
      [ctrA].length + [ctrB].length ∧
    (srv1.CRIStatsForContainers rtStats probeOk
        ([ctrA] ++ ctrGhost :: [ctrB])).errs = [sandboxNotFoundMsg ctrGhost] ∧
    strContains (sandboxNotFoundMsg ctrGhost) ctrGhost.id = true) :=
  ⟨rfl,
   criStats_one_bad_sandbox srv1 rtStats probeOk [ctrA] ctrGhost [ctrB] rfl
    (by
      intro x hx
      have hx2 : x = ctrA ∨ x = ctrB := by simpa using hx
      rcases hx2 with h | h <;> subst h <;> exact ⟨sb1, rfl, statsFix, rfl⟩)⟩

/-- C6: the single-container entry point surfaces the first error of the batch
call (discarding any partial successes) when the error sequence is non-empty,
and fails with an internal-consistency error when the error sequence is empty
but the success sequence does not hold exactly one record. -/
theorem containerStats_single_dispatch (s : Server)
    (rt : oci.Container → String → Except String oci.ContainerStats)
    (probe : String → Except String (Nat × Nat))
    (req : types.ContainerStatsRequest) (c : oci.Container)
    (hc : s.GetContainerFromShortID req.ContainerID = .ok c) :
    (∀ e es, (s.CRIStatsForContainers rt probe [c]).errs = e :: es →
      s.ContainerStats rt probe req = .error e) ∧
    ((s.CRIStatsForContainers rt probe [c]).errs = [] →
      (s.CRIStatsForContainers rt probe [c]).stats.length ≠ 1 →
      s.ContainerStats rt probe req =
        .error ("Unknown error happened finding container stats for " ++
          req.ContainerID)) := by
  constructor
  · intro e es he
    simp [Server.ContainerStats, hc, he]
  · intro h0 h1
    rcases hstats : (s.CRIStatsForContainers rt probe [c]).stats with
      _ | ⟨st, _ | ⟨st2, rest⟩⟩
    · simp [Server.ContainerStats, hc, h0, hstats]
    · exact absurd (by rw [hstats]; rfl) h1
    · simp [Server.ContainerStats, hc, h0, hstats]

theorem containerStats_single_dispatch_witness :
    srv1.GetContainerFromShortID "ctr1" = .ok ctrRun ∧
    srv1.ContainerStats rtBoom probeOk { ContainerID := "ctr1" } =
      .error "boom" :=
  ⟨rfl,
   (containerStats_single_dispatch srv1 rtBoom probeOk
      { ContainerID := "ctr1" } ctrRun rfl).1 "boom" [] rfl⟩

/-- C7: a container whose sandbox resolves and whose runtime stats query
succeeds yields exactly its assembled record in the success sequence; that
record always has non-nil CPU and Memory sections, and its writable-layer
section is nil whenever the storage driver is not overlay. -/
theorem stats_record_sections (s : Server)
    (rt : oci.Container → String → Except String oci.ContainerStats)
    (probe : String → Except String (Nat × Nat))
    (c : oci.Container) (sb : Sandbox) (st : oci.ContainerStats)
    (hsb : s.GetSandbox c.sandbox = some sb)
    (hrt : rt c sb.cgroupParent = .ok st) :
    (s.CRIStatsForContainers rt probe [c]).stats =
      [(s.buildContainerStats probe st c).1] ∧
    (s.buildContainerStats probe st c).1.CPU.isSome = true ∧
    (s.buildContainerStats probe st c).1.Memory.isSome = true ∧
    (s.storage ≠ "overlay" →
      (s.buildContainerStats probe st c).1.WritableLayer = none) := by
  refine ⟨?_, ?_, ?_, ?_⟩
  · simp [Server.CRIStatsForContainers, hsb, hrt]
  · simp [Server.buildContainerStats]
  · simp [Server.buildContainerStats]
  · intro hst
    have hb : (s.storage == "overlay") = false := by simpa using hst
    simp [Server.buildContainerStats, hb]

theorem stats_record_sections_witness :
    (srvNonOverlay.CRIStatsForContainers rtStats probeOk [ctrRun]).stats =
      [(srvNonOverlay.buildContainerStats probeOk statsFix ctrRun).1] ∧
    (srvNonOverlay.buildContainerStats probeOk statsFix ctrRun).1.CPU.isSome =
      true ∧
    (srvNonOverlay.buildContainerStats probeOk statsFix
      ctrRun).1.Memory.isSome = true ∧
    (srvNonOverlay.buildContainerStats probeOk statsFix
      ctrRun).1.WritableLayer = none := by
  have h := stats_record_sections srvNonOverlay rtStats probeOk ctrRun sb1
    statsFix rfl rfl
  exact ⟨h.1, h.2.1, h.2.2.1, h.2.2.2 (by decide)⟩

/-- C8: on the overlay storage driver, a failing disk-usage probe on the
dirname(mountpoint)/diff directory is non-fatal: the container still produces
a success record (no error is recorded), its writable-layer section is present
with zero-valued bytes-used and inodes-used, and a warning is logged. -/
theorem criStats_probe_failure_degrades (s : Server)
    (rt : oci.Container → String → Except String oci.ContainerStats)
    (probe : String → Except String (Nat × Nat))
    (c : oci.Container) (sb : Sandbox) (st : oci.ContainerStats) (e : String)
    (hsb : s.GetSandbox c.sandbox = some sb)
    (hrt : rt c sb.cgroupParent = .ok st)
    (hov : s.storage = "overlay")
    (hpr : probe (filepathJoin (filepathDir c.mountPoint) "diff") =
      .error e) :
    (s.CRIStatsForContainers rt probe [c]).errs = [] ∧
    (s.CRIStatsForContainers rt probe [c]).stats =
      [(s.buildContainerStats probe st c).1] ∧
    (s.buildContainerStats probe st c).1.WritableLayer =
      some { Timestamp := st.SystemNano,
             FsID := some { Mountpoint := c.mountPoint },
             UsedBytes := some { Value := 0 },
             InodesUsed := some { Value := 0 } } ∧
    (s.CRIStatsForContainers rt probe [c]).logs = [diskUsageWarnMsg c e] := by
  have hb : (s.storage == "overlay") = true := by simp [hov]
  refine ⟨?_, ?_, ?_, ?_⟩
  · simp [Server.CRIStatsForContainers, hsb, hrt]
  · simp [Server.CRIStatsForContainers, hsb, hrt]
  · simp [Server.buildContainerStats, hb, hpr]
  · simp [Server.CRIStatsForContainers, hsb, hrt, Server.buildContainerStats,
      hb, hpr]

theorem criStats_probe_failure_degrades_witness :
    srv1.storage = "overlay" ∧
    ((srv1.CRIStatsForContainers rtStats probeFail [ctrRun]).errs = [] ∧
    (srv1.buildContainerStats probeFail statsFix ctrRun).1.WritableLayer =
      some { Timestamp := statsFix.SystemNano,
             FsID := some { Mountpoint := ctrRun.mountPoint },
             UsedBytes := some { Value := 0 },
             InodesUsed := some { Value := 0 } } ∧
    (srv1.CRIStatsForContainers rtStats probeFail [ctrRun]).logs =
      [diskUsageWarnMsg ctrRun "walk failed"]) := by
  have h := criStats_probe_failure_degrades srv1 rtStats probeFail ctrRun sb1
    statsFix "walk failed" rfl rfl rfl rfl
  exact ⟨rfl, h.1, h.2.2.1, h.2.2.2⟩

/-- C9 counterexample: a runtime stats failure is appended to the error
sequence verbatim, so its message need not mention the failing container's
ID — here the container's ID is "abc" but the sole recorded error is the
runtime's own message "boom", which does not contain "abc". -/
theorem criStats_errs_id_counterexample :
    ctrBoom.id = "abc" ∧
    (srv1.CRIStatsForContainers rtBoom probeOk [ctrBoom]).errs = ["boom"] ∧
    strContains "boom" ctrBoom.id = false :=
  ⟨rfl, rfl, by decide⟩

/-- C9 (amended): every recorded error either comes from sandbox resolution —
in which case it is the sandbox-not-found message, which does contain the
failing container's ID — or is the runtime stats query's error propagated
verbatim for some container in the batch (which mentions the ID only if the
runtime's own message does). -/
theorem criStats_errs_provenance (s : Server)
    (rt : oci.Container → String → Except String oci.ContainerStats)
    (probe : String → Except String (Nat × Nat))
    (l : List oci.Container) :
    ∀ e ∈ (s.CRIStatsForContainers rt probe l).errs,
      (∃ c ∈ l, s.GetSandbox c.sandbox = none ∧ e = sandboxNotFoundMsg c ∧
        strContains e c.id = true) ∨
      (∃ c ∈ l, ∃ sb, s.GetSandbox c.sandbox = some sb ∧
        rt c sb.cgroupParent = .error e) := by
  induction l with
  | nil =>
    intro e he
    simp [Server.CRIStatsForContainers] at he
  | cons c l ih =>
    intro e he
    have lift :
        (∃ x ∈ l, s.GetSandbox x.sandbox = none ∧ e = sandboxNotFoundMsg x ∧
          strContains e x.id = true) ∨
        (∃ x ∈ l, ∃ sb, s.GetSandbox x.sandbox = some sb ∧
          rt x sb.cgroupParent = .error e) →
        (∃ x ∈ c :: l, s.GetSandbox x.sandbox = none ∧
          e = sandboxNotFoundMsg x ∧ strContains e x.id = true) ∨
        (∃ x ∈ c :: l, ∃ sb, s.GetSandbox x.sandbox = some sb ∧
          rt x sb.cgroupParent = .error e) := by
      rintro (⟨x, hx, hrest⟩ | ⟨x, hx, hrest⟩)
      · exact Or.inl ⟨x, List.mem_cons_of_mem _ hx, hrest⟩
      · exact Or.inr ⟨x, List.mem_cons_of_mem _ hx, hrest⟩
    cases hsb : s.GetSandbox c.sandbox with
    | none =>
      simp only [Server.CRIStatsForContainers, hsb, List.mem_cons] at he
      rcases he with he | he
      · subst he
        exact Or.inl ⟨c, List.mem_cons_self c l, hsb, rfl,
          sandboxNotFoundMsg_has_id c⟩
      · exact lift (ih e he)
    | some sb =>
      cases hrt : rt c sb.cgroupParent with
      | error e2 =>
        simp only [Server.CRIStatsForContainers, hsb, hrt, List.mem_cons] at he
        rcases he with he | he
        · subst he
          exact Or.inr ⟨c, List.mem_cons_self c l, sb, hsb, hrt⟩
        · exact lift (ih e he)
      | ok st =>
        simp only [Server.CRIStatsForContainers, hsb, hrt] at he
        exact lift (ih e he)

theorem criStats_errs_provenance_witness :
    (∃ c ∈ [ctrBoom], srv1.GetSandbox c.sandbox = none ∧
      "boom" = sandboxNotFoundMsg c ∧ strContains "boom" c.id = true) ∨
    (∃ c ∈ [ctrBoom], ∃ sb, srv1.GetSandbox c.sandbox = some sb ∧
      rtBoom c sb.cgroupParent = .error "boom") :=
  criStats_errs_provenance srv1 rtBoom probeOk [ctrBoom] "boom" (by decide)

end CRIO
